import Mathlib

/-!
Shallow embedding of the Spark structured-streaming ETL in
`src/py_code/device_streaming_with_kafka.py` (class `Streaming_ETL`).

Numeric SQL values (Spark `float`/`double`) are modelled by `ℚ`; SQL NULL
is modelled by `Option`. Spark SQL runs with ANSI mode off, so division by
zero and out-of-range `element_at` evaluate to NULL rather than raising an
error; `sparkDiv` and `List.head?` reflect this. A Spark `map<string,float>`
produced by `from_json` keeps the JSON object's entry order, so it is
modelled as an association list.
-/

namespace DeviceStreaming

/-- The columns produced by the first `select` of `Streaming_ETL.transform`
(lines 47–64): `key`, `device`, `collected_at`, `thermal_zones`,
`sensors_cpu`, `sensors`. Timestamps are kept abstract as strings; every
column is nullable. -/
structure IntermediateRecord where
  key : Option String
  device : Option String
  collected_at : Option String
  thermal_zones : Option (List ℚ)
  sensors_cpu : Option ℚ
  sensors : Option (List (String × ℚ))
deriving DecidableEq

/-- The output row of `Streaming_ETL.transform` (lines 81–87): the final
`select` plus the `withColumn("gpu_temp", F.lit(0))`. -/
structure CanonicalRecord where
  key : Option String
  device : Option String
  collected_at : Option String
  cpu_temp : Option ℚ
  gpu_temp : ℚ
deriving DecidableEq

/-- Spark SQL division with ANSI mode off: a zero divisor yields NULL. -/
def sparkDiv (a b : ℚ) : Option ℚ :=
  if b = 0 then none else some (a / b)

/-- `aggregate(thermal_zones, cast(0.0 as double), (acc, x) -> acc + x)`
(line 69): a left fold of addition starting from 0. Idealization: the
program folds `float` elements into a `double` accumulator with IEEE
rounding at every step; here the fold is exact rational addition, so any
property that hinges on rounding (approximation error, dependence of the
accumulated sum on element order) is outside this model's scope. -/
def aggregateSum (zs : List ℚ) : ℚ :=
  zs.foldl (· + ·) 0

/-- `F.when(F.col('thermal_zones').isNotNull(), aggregate(...) / size(thermal_zones))`
(lines 67–70): NULL when `thermal_zones` is NULL, otherwise the fold-sum
divided by the array size (NULL when the size is zero, by `sparkDiv`). -/
def thermalBranch (r : IntermediateRecord) : Option ℚ :=
  match r.thermal_zones with
  | none => none
  | some zs => sparkDiv (aggregateSum zs) (zs.length : ℚ)

/-- `F.when(F.col('sensors').isNotNull(), element_at(map_values(sensors), 1))`
(lines 75–78): NULL when `sensors` is NULL; otherwise `map_values` lists the
map's values in entry order and `element_at(·, 1)` takes the first one,
NULL when the map is empty. -/
def sensorsBranch (r : IntermediateRecord) : Option ℚ :=
  match r.sensors with
  | none => none
  | some m => (m.map Prod.snd).head?

/-- `cpu_value` (lines 66–79): `F.coalesce` over the three `when` branches.
The middle branch `F.when(F.col('sensors_cpu').isNotNull(), F.col('sensors_cpu'))`
is NULL exactly when `sensors_cpu` is, i.e. it equals `sensors_cpu` itself. -/
def derive_cpu_temp (r : IntermediateRecord) : Option ℚ :=
  match thermalBranch r with
  | some v => some v
  | none =>
    match r.sensors_cpu with
    | some v => some v
    | none => sensorsBranch r

/-- The final `select` of `transform` (lines 81–87): copy `key`, `device`,
`collected_at`, rename `cpu_value` to `cpu_temp`, and set `gpu_temp`
to the literal 0. -/
def normalize (r : IntermediateRecord) : CanonicalRecord :=
  { key := r.key
    device := r.device
    collected_at := r.collected_at
    cpu_temp := derive_cpu_temp r
    gpu_temp := 0 }

/-- The arithmetic mean of a list, as the specification words it
(sum divided by length, with ℚ's total division). -/
def listMean (zs : List ℚ) : ℚ :=
  zs.sum / (zs.length : ℚ)

/-- A parsed JSON value, with numbers as `ℚ` and object fields kept in
their textual order. -/
inductive Json where
  | null : Json
  | bool : Bool → Json
  | num : ℚ → Json
  | str : String → Json
  | arr : List Json → Json
  | obj : List (String × Json) → Json

/-- Field lookup in a JSON object's field list (first occurrence wins). -/
def jlookup (fields : List (String × Json)) (k : String) : Option Json :=
  match fields.find? (fun p => p.1 == k) with
  | some p => some p.2
  | none => none

/-- One step of a `get_json_object` path: NULL on NULL input, on a
non-object value and on a missing field. -/
def getField (v : Option Json) (k : String) : Option Json :=
  match v with
  | some (Json.obj fs) => jlookup fs k
  | _ => none

/-- `cast('string')` of an extracted JSON scalar; non-string scalars are
abstracted to NULL (no claim exercises their textual rendering). -/
def castString (v : Option Json) : Option String :=
  match v with
  | some (Json.str s) => some s
  | _ => none

/-- Coercion of a JSON value to `float`: non-numbers become NULL. -/
def jsonFloat : Json → Option ℚ
  | Json.num q => some q
  | _ => none

/-- `from_json(·, 'array<float>')` (lines 53–55): an array of numbers; any
other shape yields NULL for the field. -/
def jsonFloatArray : Json → Option (List ℚ)
  | Json.arr xs => xs.mapM jsonFloat
  | _ => none

/-- `from_json(·, 'map<string,float>')` (lines 61–63): an object whose
values are numbers, kept in entry order; any other shape yields NULL. -/
def jsonSensorsMap : Json → Option (List (String × ℚ))
  | Json.obj fs => fs.mapM (fun p => (jsonFloat p.2).map (fun q => (p.1, q)))
  | _ => none

/-- An input row of `transform`: the `key` string and the parse result of
`json_value`. `json_value = none` models a value that is not parseable as
JSON at all — `get_json_object` and `from_json` return NULL on invalid
JSON instead of failing. -/
structure Row where
  key : Option String
  json_value : Option Json

/-- The first `select` of `transform` (lines 47–64) on one row: each of the
six columns is extracted independently; a missing path, an unparseable
payload, or a type mismatch yields NULL for that column alone. -/
def decodeRow (row : Row) : IntermediateRecord :=
  { key := row.key
    device := castString (getField row.json_value "device")
    collected_at := castString (getField row.json_value "collected_at")
    thermal_zones :=
      (getField (getField row.json_value "cpu") "thermal_zones").bind jsonFloatArray
    sensors_cpu :=
      (getField (getField (getField row.json_value "cpu") "sensors") "CPU").bind jsonFloat
    sensors :=
      (getField (getField row.json_value "cpu") "sensors").bind jsonSensorsMap }

/-- The whole of `transform` on one row: decode, derive, normalize. -/
def transformRow (row : Row) : CanonicalRecord :=
  normalize (decodeRow row)

/-- `transform` over a micro-batch: a per-row map, with no filtering and
no per-batch state. -/
def transformBatch (rows : List Row) : List CanonicalRecord :=
  rows.map transformRow

/-- A well-formed payload `{device: d, cpu: {sensors: {CPU: t}}}`, used to
build concrete batches. -/
def validPayload (d : String) (t : ℚ) : Json :=
  Json.obj [("device", Json.str d),
            ("cpu", Json.obj [("sensors", Json.obj [("CPU", Json.num t)])])]

/-- A five-row batch whose second row's value is not parseable as JSON. -/
def mixedBatch : List Row :=
  [⟨some "k1", some (validPayload "pi1" 50)⟩,
   ⟨some "k2", none⟩,
   ⟨some "k3", some (validPayload "pi3" 51)⟩,
   ⟨some "k4", some (validPayload "pi4" 52)⟩,
   ⟨some "k5", some (validPayload "pi5" 53)⟩]

/-- Modelled from the spec: the micro-batch commit discipline of the
streaming engine that drives `start_streaming` / `foreachBatch`
(lines 101–112) is not part of src/. Per §4.5 of the specification, the
orchestrator's cross-batch state is the progress position plus whether the
pipeline has reached the `Failed` terminal state. -/
structure OrchestratorState where
  progress : ℕ
  failed : Bool
deriving DecidableEq

/-- The pass/fail result reported by the batch sink writer
(`write_to_postgres`, lines 89–99, which propagates any save error). -/
inductive WriteResult where
  | success : WriteResult
  | failure : WriteResult
deriving DecidableEq

/-- Modelled from the spec: one batch attempt (§4.5). On write success the
progress marker advances to the batch's end position
(`Writing → Committing`); on write failure the pipeline is marked failed
and the position is NOT advanced (`Writing → Failed`). -/
def stepBatch (s : OrchestratorState) (batchEnd : ℕ) (w : WriteResult) : OrchestratorState :=
  match w with
  | WriteResult.success => { s with progress := batchEnd }
  | WriteResult.failure => { s with failed := true }

/-- Modelled from the spec: the orchestrator loop over a sequence of batch
attempts; `Failed` is terminal, so no further batch is processed after a
failure. -/
def runBatches : OrchestratorState → List (ℕ × WriteResult) → OrchestratorState
  | s, [] => s
  | s, (e, w) :: rest => if s.failed then s else runBatches (stepBatch s e w) rest

/-- A column value of the `process` stage's frame, carrying its SQL type:
both columns there are strings, but `fillna` distinguishes types. -/
inductive Cell where
  | strCell : Option String → Cell
  | numCell : Option ℚ → Cell
deriving DecidableEq

/-- `DataFrame.fillna(0)` (line 44): a numeric fill value applies only to
numeric columns; string columns are left untouched, nulls included. -/
def fillnaZero : Cell → Cell
  | Cell.strCell v => Cell.strCell v
  | Cell.numCell none => Cell.numCell (some 0)
  | Cell.numCell (some q) => Cell.numCell (some q)

/-- `Streaming_ETL.process` (lines 37–44) on one row: select `key` and
`value` cast to string (the Kafka binary columns, decoded; nullable), then
apply `fillna(0)` to both resulting columns. -/
def processRow (key value : Option String) : Cell × Cell :=
  (fillnaZero (Cell.strCell key), fillnaZero (Cell.strCell value))

/-- The plain two-column selection the specification describes: cast both
columns to string and nothing more. -/
def plainSelection (key value : Option String) : Cell × Cell :=
  (Cell.strCell key, Cell.strCell value)

lemma foldl_add_eq_sum (zs : List ℚ) : ∀ a : ℚ, zs.foldl (· + ·) a = a + zs.sum := by
  induction zs with
  | nil => intro a; simp
  | cons z zs ih => intro a; simp [List.foldl_cons, ih (a + z)]; ring

lemma aggregateSum_eq_sum (zs : List ℚ) : aggregateSum zs = zs.sum := by
  simp [aggregateSum, foldl_add_eq_sum]

lemma thermalBranch_nonempty (r : IntermediateRecord) (zs : List ℚ)
    (h : r.thermal_zones = some zs) (hne : zs ≠ []) :
    thermalBranch r = some (listMean zs) := by
  have hlen : (zs.length : ℚ) ≠ 0 := by
    exact_mod_cast (Nat.pos_of_ne_zero (by simpa using hne)).ne'
  simp [thermalBranch, h, sparkDiv, hlen, aggregateSum_eq_sum, listMean]

lemma derive_of_thermal_some (r : IntermediateRecord) (v : ℚ)
    (h : thermalBranch r = some v) : derive_cpu_temp r = some v := by
  simp [derive_cpu_temp, h]

lemma runBatches_failed (s : OrchestratorState) (rest : List (ℕ × WriteResult))
    (h : s.failed = true) : runBatches s rest = s := by
  cases rest with
  | nil => rfl
  | cons b rest => cases b with | mk e w => simp [runBatches, h]

/-- Counterexample to claim C1: for a record with `thermal_zones` present
but empty and `sensors_cpu = 55.5`, the first branch's division by
`size(thermal_zones) = 0` is NULL, so `coalesce` substitutes the
lower-priority `sensors_cpu` value — the result is not the (empty) mean of
`thermal_zones`. -/
theorem thermal_empty_falls_through_cex :
    (⟨some "k", some "pi1", none, some [], some (111/2), none⟩
      : IntermediateRecord).thermal_zones = some [] ∧
    derive_cpu_temp ⟨some "k", some "pi1", none, some [], some (111/2), none⟩ =
      some (111/2) ∧
    derive_cpu_temp ⟨some "k", some "pi1", none, some [], some (111/2), none⟩ ≠
      some (listMean []) := by
  refine ⟨rfl, rfl, ?_⟩
  simp [derive_cpu_temp, thermalBranch, sparkDiv, aggregateSum, listMean]

/-- Claim C1 (amended): for a record whose `thermal_zones` is non-null and
non-empty, `derive_cpu_temp` is the arithmetic mean of its elements — the
first branch wins over `sensors_cpu` and `sensors` whatever their values;
when `thermal_zones` is empty the branch is NULL and lower-priority
branches take over. -/
theorem derive_thermal_nonempty_mean (r : IntermediateRecord) (zs : List ℚ)
    (h : r.thermal_zones = some zs) (hne : zs ≠ []) :
    derive_cpu_temp r = some (listMean zs) :=
  derive_of_thermal_some r _ (thermalBranch_nonempty r zs h hne)

/-- Witness for C1 (amended): scenario A with `sensors_cpu` also present,
`thermal_zones = [40, 44]` still wins and gives its mean. -/
theorem derive_thermal_nonempty_mean_witness :
    derive_cpu_temp ⟨some "a", some "pi1", none, some [40, 44], some 99, none⟩ =
      some (listMean [40, 44]) :=
  derive_thermal_nonempty_mean _ [40, 44] rfl (by decide)

/-- Counterexample to claim C2: on a five-row batch whose second row's
value is unparseable JSON, `transform` still emits five output rows — the
malformed record is not dropped (and the code keeps no decode-error
counter), contradicting the claimed output count of 4. -/
theorem malformed_record_not_dropped_cex :
    mixedBatch.length = 5 ∧
    (transformBatch mixedBatch).length = 5 ∧
    (transformBatch mixedBatch).length ≠ 4 ∧
    transformRow ⟨some "k2", none⟩ =
      ⟨some "k2", none, none, none, 0⟩ := by
  refine ⟨rfl, rfl, by decide, rfl⟩

/-- Claim C2 (amended): `transform` maps every input row to exactly one
output row — a row with an unparseable value is not dropped but propagated
with `key` preserved, all decoded fields null, `cpu_temp` null and
`gpu_temp = 0`; a five-row batch with one malformed value yields five
output records and no decode-error counter exists. -/
theorem transform_preserves_count (rows : List Row) (k : Option String) :
    (transformBatch rows).length = rows.length ∧
    transformRow ⟨k, none⟩ = ⟨k, none, none, none, 0⟩ := by
  exact ⟨by simp [transformBatch], rfl⟩

/-- Claim C4: when `thermal_zones` is null and `sensors_cpu` is non-null,
`derive_cpu_temp` returns `sensors_cpu` exactly. -/
theorem derive_sensors_cpu_fallback (r : IntermediateRecord) (q : ℚ)
    (h1 : r.thermal_zones = none) (h2 : r.sensors_cpu = some q) :
    derive_cpu_temp r = some q := by
  simp [derive_cpu_temp, thermalBranch, h1, h2]

/-- Witness for C4: scenario B, `sensors_cpu = 55.5` with no `thermal_zones`. -/
theorem derive_sensors_cpu_fallback_witness :
    derive_cpu_temp
      ⟨some "k", some "pi2", none, none, some (111/2), none⟩ = some (111/2) :=
  derive_sensors_cpu_fallback _ (111/2) rfl rfl

/-- Claim C5: when `thermal_zones` and `sensors_cpu` are both null and
`sensors` is non-null and non-empty, `derive_cpu_temp` is the value of the
first entry of the map in its entry (iteration) order. -/
theorem derive_sensors_first_entry (r : IntermediateRecord)
    (k : String) (q : ℚ) (rest : List (String × ℚ))
    (h1 : r.thermal_zones = none) (h2 : r.sensors_cpu = none)
    (h3 : r.sensors = some ((k, q) :: rest)) :
    derive_cpu_temp r = some q := by
  simp [derive_cpu_temp, thermalBranch, sensorsBranch, h1, h2, h3]

/-- Witness for C5: scenario C, `sensors = {CPU: 60, GPU: 70}` gives 60. -/
theorem derive_sensors_first_entry_witness :
    derive_cpu_temp
      ⟨some "k", some "pi3", none, none, none,
        some [("CPU", 60), ("GPU", 70)]⟩ = some 60 :=
  derive_sensors_first_entry _ "CPU" 60 [("GPU", 70)] rfl rfl rfl

/-- Claim C6: `derive_cpu_temp` is total; with all three temperature fields
null it returns null, and the normalized record's `cpu_temp` is null. -/
theorem derive_all_null_total (r : IntermediateRecord)
    (h1 : r.thermal_zones = none) (h2 : r.sensors_cpu = none)
    (h3 : r.sensors = none) :
    derive_cpu_temp r = none ∧ (normalize r).cpu_temp = none := by
  constructor <;>
    simp [normalize, derive_cpu_temp, thermalBranch, sensorsBranch, h1, h2, h3]

/-- Witness for C6: an all-null record. -/
theorem derive_all_null_total_witness :
    derive_cpu_temp ⟨some "k", none, none, none, none, none⟩ = none ∧
    (normalize ⟨some "k", none, none, none, none, none⟩).cpu_temp = none :=
  derive_all_null_total _ rfl rfl rfl

/-- Claim C7: the final select copies `key`, `device`, `collected_at`
through unchanged, sets `cpu_temp` to the derived value and `gpu_temp`
to the constant 0. -/
theorem normalize_fields (r : IntermediateRecord) :
    (normalize r).key = r.key ∧ (normalize r).device = r.device ∧
    (normalize r).collected_at = r.collected_at ∧
    (normalize r).cpu_temp = derive_cpu_temp r ∧
    (normalize r).gpu_temp = 0 :=
  ⟨rfl, rfl, rfl, rfl, rfl⟩

/-- Claim C8: the decode/derive/normalize transformation is pure and
deterministic — the same row occurring twice, in any batch context, is
mapped to the identical output record both times, with no state carried
between occurrences. -/
theorem transform_deterministic (pre mid post : List Row) (row : Row) :
    transformBatch (pre ++ row :: mid ++ row :: post) =
      transformBatch pre ++ transformRow row ::
        transformBatch mid ++ transformRow row :: transformBatch post := by
  simp [transformBatch]

/-- Claim C9: a failed write attempt leaves the progress marker unchanged —
the pipeline never advances past a batch it failed to persist, whatever
batch attempts follow. -/
theorem progress_unchanged_on_failure (s : OrchestratorState) (e : ℕ)
    (rest : List (ℕ × WriteResult)) :
    (runBatches s ((e, WriteResult.failure) :: rest)).progress = s.progress := by
  by_cases hf : s.failed
  · simp [runBatches, hf]
  · have hstep : runBatches s ((e, WriteResult.failure) :: rest) =
        runBatches (stepBatch s e WriteResult.failure) rest := by
      simp [runBatches, hf]
    rw [hstep, runBatches_failed _ _ (by simp [stepBatch])]
    rfl

/-- Claim C10: the `process` stage equals the plain two-column
string-cast selection — `fillna(0)` is the identity on the two string
columns — and the key is copied through unchanged. -/
theorem process_eq_plain_selection (key value : Option String) :
    processRow key value = plainSelection key value ∧
    (processRow key value).1 = Cell.strCell key :=
  ⟨rfl, rfl⟩

end DeviceStreaming
